import Mathlib

/-!
Verification of the authentication boundary of the MCP BigQuery server:
a shallow embedding of `src/mcp_bigquery/auth.py`, `src/mcp_bigquery/config.py`
and `scripts/generate_jwt_token.py`, together with proofs of the specified
properties of bearer-token validation, JWT provisioning and configuration
validation.
-/

namespace MCPBigQuery

/-! ## Embedding of `src/mcp_bigquery/auth.py` -/

/-- Python whitespace characters recognised by `str.split()` / `str.strip()`
(restricted to the ASCII whitespace set). -/
def isPySpace (c : Char) : Bool :=
  c = ' ' || c = '\t' || c = '\n' || c = '\r' || c = '\x0b' || c = '\x0c'

/-- Python `s.lower()`, modelled characterwise over the string's characters. -/
def pyLower (s : String) : String :=
  String.mk (s.data.map Char.toLower)

/-- Python `s.split()` with no separator argument: split on runs of
whitespace, dropping empty pieces (so no element of the result is empty). -/
def pySplitWhitespace (s : String) : List String :=
  ((s.data.splitOnP isPySpace).map (fun l => String.mk l)).filter (fun t => t ≠ "")

/-- Embedding of `extract_bearer_token` (auth.py lines 18-39): `None` and the
empty header are falsy; the header is whitespace-split; exactly two parts are
required and the scheme must lowercase to "bearer". -/
def extract_bearer_token (auth_header : Option String) : Option String :=
  match auth_header with
  | none => none
  | some h =>
    if h = "" then none
    else
      match pySplitWhitespace h with
      | [scheme, token] => if pyLower scheme = "bearer" then some token else none
      | _ => none

/-- Embedding of `validate_bearer_token` (auth.py lines 42-64); the configured
`settings.bearer_token` is passed explicitly. A falsy token (`None` or empty)
is rejected, otherwise the token is compared to the secret by equality. -/
def validate_bearer_token (bearer_token : String) (token : Option String) : Bool :=
  match token with
  | none => false
  | some t => if t = "" then false else t = bearer_token

/-- The spec's `validate_bearer(configured_secret, presented_header)`:
extraction followed by validation, as the two functions compose in auth.py. -/
def validate_bearer (secret : String) (header : Option String) : Bool :=
  validate_bearer_token secret (extract_bearer_token header)

lemma pySplitWhitespace_mem_ne_empty (s : String) {x : String}
    (hx : x ∈ pySplitWhitespace s) : x ≠ "" := by
  have := List.of_mem_filter hx
  simpa using this

lemma pySplitWhitespace_empty : pySplitWhitespace "" = [] := by decide

/-- C1: bearer validation succeeds exactly when the header splits into exactly
two whitespace-separated tokens, the first lowercasing to "bearer" and the
second equal to the configured secret; the four concrete examples of the spec
evaluate as stated. -/
theorem validate_bearer_characterization (secret : String) (header : Option String) :
    (validate_bearer secret header = true ↔
      ∃ h s t, header = some h ∧ pySplitWhitespace h = [s, t] ∧
        pyLower s = "bearer" ∧ t = secret) ∧
    validate_bearer "secret123" (some "Bearer secret123") = true ∧
    validate_bearer "secret123" (some "bearer secret123") = true ∧
    validate_bearer "secret123" (some "Basic secret123") = false ∧
    validate_bearer "secret123" none = false := by
  refine ⟨?_, by decide, by decide, by decide, by decide⟩
  constructor
  · intro hval
    match header with
    | none => simp [validate_bearer, extract_bearer_token, validate_bearer_token] at hval
    | some h =>
      by_cases hemp : h = ""
      · subst hemp
        simp [validate_bearer, extract_bearer_token, validate_bearer_token] at hval
      · refine ⟨h, ?_⟩
        unfold validate_bearer extract_bearer_token at hval
        simp only [hemp, if_false] at hval
        match hsplit : pySplitWhitespace h with
        | [] => rw [hsplit] at hval; simp [validate_bearer_token] at hval
        | [a] => rw [hsplit] at hval; simp [validate_bearer_token] at hval
        | a :: b :: c :: rest => rw [hsplit] at hval; simp [validate_bearer_token] at hval
        | [s, t] =>
          rw [hsplit] at hval
          by_cases hsch : pyLower s = "bearer"
          · simp only [hsch, if_true] at hval
            unfold validate_bearer_token at hval
            by_cases ht : t = ""
            · simp [ht] at hval
            · simp only [ht, if_false] at hval
              exact ⟨s, t, rfl, rfl, hsch, by simpa using hval⟩
          · simp [hsch, validate_bearer_token] at hval
  · rintro ⟨h, s, t, rfl, hsplit, hsch, rfl⟩
    have ht : t ≠ "" := pySplitWhitespace_mem_ne_empty h (by rw [hsplit]; simp)
    have hemp : h ≠ "" := by
      intro he
      rw [he, pySplitWhitespace_empty] at hsplit
      exact List.noConfusion hsplit
    unfold validate_bearer extract_bearer_token
    simp only [hemp, if_false, hsplit, hsch, if_true]
    unfold validate_bearer_token
    simp [ht]

/-- Outcome of `authenticate_request`: either it returns `True`, or it raises
`AuthenticationError` with the given message. -/
inductive AuthOutcome where
  | ok : AuthOutcome
  | authError (msg : String) : AuthOutcome
deriving DecidableEq

/-- Embedding of `authenticate_request` (auth.py lines 67-85): extract the
token, validate it, and raise `AuthenticationError("Invalid or missing bearer
token")` when validation fails. -/
def authenticate_request (secret : String) (auth_header : Option String) : AuthOutcome :=
  let token := extract_bearer_token auth_header
  if validate_bearer_token secret token then AuthOutcome.ok
  else AuthOutcome.authError "Invalid or missing bearer token"

lemma authenticate_request_eq_ite (secret : String) (header : Option String) :
    authenticate_request secret header =
      (if validate_bearer secret header = true then AuthOutcome.ok
       else AuthOutcome.authError "Invalid or missing bearer token") := by
  unfold authenticate_request validate_bearer
  rfl

/-- C2: `authenticate_request` raises exactly when bearer validation fails,
always with the single generic message "Invalid or missing bearer token"
(the same message for a missing header, a wrong scheme and a wrong secret),
and returns successfully exactly when validation succeeds. -/
theorem authenticate_request_spec (secret : String) (header : Option String) :
    (authenticate_request secret header = AuthOutcome.ok ↔
      validate_bearer secret header = true) ∧
    (∀ m, authenticate_request secret header = AuthOutcome.authError m ↔
      (validate_bearer secret header = false ∧ m = "Invalid or missing bearer token")) := by
  rw [authenticate_request_eq_ite]
  cases hv : validate_bearer secret header <;> simp [hv, eq_comm]

/-- Result of calling a function wrapped by the `require_auth` decorator: the
wrapped function's return value, or a propagated `AuthenticationError`. -/
inductive WrapperResult (α : Type) where
  | value (v : α) : WrapperResult α
  | authError (msg : String) : WrapperResult α
deriving DecidableEq

/-- Embedding of the wrapper produced by `require_auth` (auth.py lines
88-118): the `_auth_header` keyword argument is looked up (`None` when
absent); only a truthy (present, non-empty) header triggers
`authenticate_request`, whose `AuthenticationError` is re-raised; otherwise
the wrapped function runs unconditionally. `funcResult` stands for the value
of `func(*args, **kwargs)`. -/
def require_auth {α : Type} (secret : String) (funcResult : α)
    (auth_header : Option String) : WrapperResult α :=
  match auth_header with
  | none => WrapperResult.value funcResult
  | some h =>
    if h = "" then WrapperResult.value funcResult
    else
      match authenticate_request secret (some h) with
      | AuthOutcome.ok => WrapperResult.value funcResult
      | AuthOutcome.authError m => WrapperResult.authError m

/-- C4: the `require_auth` wrapper is fail-open — an absent, `None` or empty
`_auth_header` keyword argument runs the wrapped function with no
authentication check and no error; only a truthy header triggers
authentication, which raises the generic error exactly when validation
fails. -/
theorem require_auth_fail_open {α : Type} (secret : String) (funcResult : α) :
    require_auth secret funcResult none = WrapperResult.value funcResult ∧
    require_auth secret funcResult (some "") = WrapperResult.value funcResult ∧
    ∀ h : String, require_auth secret funcResult (some h) =
      (if h = "" then WrapperResult.value funcResult
       else if validate_bearer secret (some h) then WrapperResult.value funcResult
       else WrapperResult.authError "Invalid or missing bearer token") := by
  refine ⟨rfl, rfl, fun h => ?_⟩
  by_cases hemp : h = ""
  · simp [require_auth, hemp]
  · simp only [require_auth, hemp, if_false]
    rw [authenticate_request_eq_ite]
    cases hv : validate_bearer secret (some h) <;> simp [hv]

/-- Shape of the `{"error": {"code": ..., "message": ...}}` dictionary
returned by `get_auth_error_response`; the two structures have exactly the
fields the dictionary literal has. -/
structure AuthErrorBody where
  code : String
  message : String
deriving DecidableEq

structure AuthErrorResponse where
  error : AuthErrorBody
deriving DecidableEq

/-- Default value of the `message` parameter of `get_auth_error_response`. -/
def default_auth_error_message : String := "Authentication required"

/-- Embedding of `get_auth_error_response` (auth.py lines 121-136). -/
def get_auth_error_response (message : String) : AuthErrorResponse :=
  { error := { code := "UNAUTHORIZED", message := message } }

/-- C9: for every message, the authentication error response is exactly the
object whose `error.code` is the literal "UNAUTHORIZED" and whose
`error.message` is the given message, with no other fields; the default
message is "Authentication required". -/
theorem get_auth_error_response_spec (m : String) (r : AuthErrorResponse) :
    (get_auth_error_response m = r ↔
      (r.error.code = "UNAUTHORIZED" ∧ r.error.message = m)) ∧
    get_auth_error_response default_auth_error_message =
      { error := { code := "UNAUTHORIZED", message := "Authentication required" } } := by
  obtain ⟨⟨c, msg⟩⟩ := r
  refine ⟨?_, rfl⟩
  constructor
  · intro hr
    cases hr
    exact ⟨rfl, rfl⟩
  · rintro ⟨rfl, rfl⟩
    rfl

/-! ## Embedding of `src/mcp_bigquery/config.py` (bearer-token field) -/

namespace Config

/-- The documented placeholder value rejected by the validator
(config.py line 77). -/
def placeholder_bearer_token : String :=
  "your-secure-bearer-token-here-at-least-32-characters"

/-- Embedding of the validation applied to `Settings.bearer_token` during
construction: the `min_length=32` field constraint (config.py lines 22-26)
together with the `validate_bearer_token` field validator (lines 71-79).
Construction of `Settings` succeeds on this field only when the value passes
both; otherwise pydantic raises a validation error. -/
def validate_bearer_token_field (v : String) : Except String String :=
  if v.length < 32 then
    Except.error "Bearer token must be at least 32 characters long"
  else if v = placeholder_bearer_token then
    Except.error "Please set a real bearer token, not the example value"
  else
    Except.ok v

end Config

/-- C10: a `Settings` bearer token validates successfully exactly when it has
at least 32 characters and differs from the documented placeholder value, and
the validated value is the input unchanged; every environment violating
either condition yields a validation error instead of a constructed
`Settings`. -/
theorem settings_bearer_token_invariant (v : String) :
    (∀ r, Config.validate_bearer_token_field v = Except.ok r ↔
      (r = v ∧ 32 ≤ v.length ∧ v ≠ Config.placeholder_bearer_token)) ∧
    ((∃ e, Config.validate_bearer_token_field v = Except.error e) ↔
      (v.length < 32 ∨ v = Config.placeholder_bearer_token)) := by
  unfold Config.validate_bearer_token_field
  by_cases hlen : v.length < 32
  · simp [hlen]
  · by_cases hph : v = Config.placeholder_bearer_token
    · subst hph
      have h52 : ¬ Config.placeholder_bearer_token.length < 32 := by decide
      simp [h52]
    · simp [hlen, hph]
      intro r
      constructor
      · intro hr
        exact ⟨hr.symm, by omega⟩
      · intro hr
        exact hr.1.symm

/-! ## Embedding of `scripts/generate_jwt_token.py` -/

/-- Python `s.strip()`: remove leading and trailing whitespace. -/
def pyStrip (s : String) : String :=
  String.mk (((s.data.dropWhile isPySpace).reverse.dropWhile isPySpace).reverse)

/-- Python `s.split(",")`: split on each comma, keeping empty pieces. -/
def pySplitComma (s : String) : List String :=
  (s.data.splitOn ',').map (fun l => String.mk l)

/-- Embedding of the scope parsing on line 169 of generate_jwt_token.py:
`[s.strip() for s in scopes.split(",") if s.strip()]`. -/
def parse_scopes (scopes : String) : List String :=
  ((pySplitComma scopes).map pyStrip).filter (fun t => t ≠ "")

/-- Default value of the `--scopes` option (generate_jwt_token.py line 103). -/
def default_scopes : String := "read,write,admin"

lemma dropWhile_idem {α : Type} (p : α → Bool) (l : List α) :
    (l.dropWhile p).dropWhile p = l.dropWhile p := by
  induction l with
  | nil => rfl
  | cons a l ih =>
    by_cases h : p a
    · simp [List.dropWhile_cons, h, ih]
    · simp [List.dropWhile_cons, h]

lemma dropWhile_cons_false {α : Type} {p : α → Bool} {l : List α} {a : α} {t : List α}
    (h : l.dropWhile p = a :: t) : p a = false := by
  induction l with
  | nil => simp [List.dropWhile] at h
  | cons b l ih =>
    by_cases hb : p b
    · rw [List.dropWhile_cons, if_pos hb] at h
      exact ih h
    · rw [List.dropWhile_cons, if_neg hb] at h
      cases h
      simpa using hb

lemma dropWhile_append_singleton {α : Type} {p : α → Bool} {x : α} (hx : p x = false)
    (l : List α) : ∃ t, (l ++ [x]).dropWhile p = t ++ [x] := by
  induction l with
  | nil => exact ⟨[], by simp [List.dropWhile_cons, hx]⟩
  | cons a l ih =>
    by_cases ha : p a
    · simpa [List.dropWhile_cons, ha] using ih
    · exact ⟨a :: l, by simp [List.dropWhile_cons, ha]⟩

lemma pyStrip_data_dropWhile (l : List Char) :
    (((l.dropWhile isPySpace).reverse.dropWhile isPySpace).reverse).dropWhile isPySpace =
      ((l.dropWhile isPySpace).reverse.dropWhile isPySpace).reverse := by
  match hl1 : l.dropWhile isPySpace with
  | [] => simp
  | x :: t1 =>
    have hx : isPySpace x = false := dropWhile_cons_false hl1
    obtain ⟨t, ht⟩ := dropWhile_append_singleton hx t1.reverse
    rw [show (x :: t1).reverse = t1.reverse ++ [x] by simp]
    rw [ht]
    simp [List.dropWhile_cons, hx]

lemma pyStrip_idem (s : String) : pyStrip (pyStrip s) = pyStrip s := by
  show String.mk _ = String.mk _
  congr 1
  show ((((((s.data.dropWhile isPySpace).reverse.dropWhile isPySpace).reverse).dropWhile
      isPySpace).reverse.dropWhile isPySpace).reverse) =
    ((s.data.dropWhile isPySpace).reverse.dropWhile isPySpace).reverse
  rw [pyStrip_data_dropWhile s.data]
  rw [List.reverse_reverse]
  rw [dropWhile_idem]

/-- C5 counterexample: the parsed scope list does not collapse duplicates —
parsing "read,read" yields the two-element list ["read", "read"], not a
deduplicated set. -/
theorem parse_scopes_duplicates_kept :
    parse_scopes "read,read" = ["read", "read"] ∧
    ¬ (parse_scopes "read,read").Nodup := by
  exact ⟨by decide, by decide⟩

/-- C5 amended: parsing the --scopes value strips whitespace around each
comma-separated segment, drops empty segments, preserves first-seen
comma-split order (the result is a sublist of the stripped segments) and
preserves duplicates (every non-empty string occurs as often as among the
stripped segments); the default "read,write,admin" parses to
["read", "write", "admin"]. -/
theorem parse_scopes_spec (scopes : String) :
    (∀ x ∈ parse_scopes scopes, x ≠ "") ∧
    (∀ x ∈ parse_scopes scopes, pyStrip x = x) ∧
    List.Sublist (parse_scopes scopes) ((pySplitComma scopes).map pyStrip) ∧
    (∀ x : String, x ≠ "" →
      (parse_scopes scopes).count x = (((pySplitComma scopes).map pyStrip)).count x) ∧
    parse_scopes default_scopes = ["read", "write", "admin"] := by
  refine ⟨?_, ?_, ?_, ?_, by decide⟩
  · intro x hx
    have := List.of_mem_filter hx
    simpa using this
  · intro x hx
    have hmem : x ∈ (pySplitComma scopes).map pyStrip := List.mem_of_mem_filter hx
    obtain ⟨y, _, rfl⟩ := List.mem_map.mp hmem
    exact pyStrip_idem y
  · exact List.filter_sublist _
  · intro x hx
    exact List.count_filter (by simpa using hx)

theorem parse_scopes_spec_witness :
    pyStrip "read" = "read" ∧
    (parse_scopes " a ,, b ").count "a" =
      ((pySplitComma " a ,, b ").map pyStrip).count "a" :=
  ⟨(parse_scopes_spec "read,x").2.1 "read" (by decide),
   (parse_scopes_spec " a ,, b ").2.2.2.1 "a" (by decide)⟩

/-- Termination of a typer command: `typer.Exit(code)` or normal completion. -/
inductive CmdOutcome where
  | exit (code : Nat) : CmdOutcome
  | completed : CmdOutcome
deriving DecidableEq

/-- Results of the file-system writes attempted by `generate_keys`; a failure
of `parent.mkdir` or `write_text` inside the same `try` block is one failed
write carrying the exception message. -/
structure GenKeysIO where
  write_public_key : Except String Unit
  write_private_key : Except String Unit

/-- Embedding of the `generate_keys` command (generate_jwt_token.py lines
21-66): the messages it emits, in order, and its outcome. The public key is
written first; a failed write prints the error and raises `typer.Exit(1)`
before anything further happens, so the private key write is never attempted
after a public key write failure. -/
def generate_keys_cmd (io : GenKeysIO) : List String × CmdOutcome :=
  let msgs := ["Generating RSA key pair for JWT authentication...",
               "RSA key pair generated"]
  match io.write_public_key with
  | Except.error e => (msgs ++ ["Failed to save public key: " ++ e], CmdOutcome.exit 1)
  | Except.ok _ =>
    let msgs := msgs ++ ["Public key saved"]
    match io.write_private_key with
    | Except.error e => (msgs ++ ["Failed to save private key: " ++ e], CmdOutcome.exit 1)
    | Except.ok _ =>
      (msgs ++ ["Private key saved (FOR TESTING ONLY)",
                "WARNING: This private key can be used to sign tokens - NEVER use in production!"],
       CmdOutcome.completed)

/-- C8: key-pair provisioning fails fast — a failed public key write exits
with code 1 immediately, emitting nothing after the failure message (in
particular the private key is never written or reported); a failed private
key write also exits with code 1; the command completes normally only when
both PEM writes succeeded, so a partially-written key pair is never treated
as valid. -/
theorem generate_keys_fail_fast (io : GenKeysIO) :
    (∀ e, io.write_public_key = Except.error e →
      generate_keys_cmd io =
        (["Generating RSA key pair for JWT authentication...",
          "RSA key pair generated",
          "Failed to save public key: " ++ e], CmdOutcome.exit 1)) ∧
    (∀ e, io.write_public_key = Except.ok () → io.write_private_key = Except.error e →
      (generate_keys_cmd io).2 = CmdOutcome.exit 1) ∧
    ((generate_keys_cmd io).2 = CmdOutcome.completed ↔
      (io.write_public_key = Except.ok () ∧ io.write_private_key = Except.ok ())) := by
  obtain ⟨wpub, wpriv⟩ := io
  refine ⟨?_, ?_, ?_⟩
  · rintro e rfl
    rfl
  · rintro e rfl rfl
    rfl
  · cases wpub with
    | error e => simp [generate_keys_cmd]
    | ok u =>
      cases wpriv with
      | error e => simp [generate_keys_cmd]
      | ok v => simp [generate_keys_cmd]

theorem generate_keys_fail_fast_witness :
    generate_keys_cmd ⟨Except.error "disk full", Except.ok ()⟩ =
      (["Generating RSA key pair for JWT authentication...",
        "RSA key pair generated",
        "Failed to save public key: disk full"], CmdOutcome.exit 1) :=
  (generate_keys_fail_fast ⟨Except.error "disk full", Except.ok ()⟩).1 "disk full" rfl

/-- Python `a or b` on optional strings: `a` when it is truthy (present and
non-empty), otherwise `b`. -/
def pyOrStr (a b : Option String) : Option String :=
  match a with
  | none => b
  | some s => if s = "" then b else some s

/-- Python `not a` on an optional string: `True` for `None` and for the empty
string. -/
def pyFalsyOpt (a : Option String) : Bool :=
  match a with
  | none => true
  | some s => s = ""

/-- Environment and file-system interactions of the `generate_token`
command: reading the private key file, parsing it (and extracting the public
key), the `JWT_ISSUER` / `JWT_AUDIENCE` environment variables, and writing
the token file. -/
structure GenTokenIO where
  read_private_key : Except String String
  load_private_key : Except String String
  env_jwt_issuer : Option String
  env_jwt_audience : Option String
  write_token : Except String Unit

/-- Command-line arguments of `generate_token` (with their typer defaults
applied by the caller). -/
structure GenTokenArgs where
  subject : String
  issuer : Option String
  audience : Option String
  scopes : String
  token_file : Option String

/-- Outcome of `generate_token`: `typer.Exit(1)`, or normal completion
displaying the token built from the given subject, issuer, audience and
scope list. -/
inductive GenTokenOutcome where
  | exit (code : Nat) : GenTokenOutcome
  | success (subject issuer audience : String) (scope_list : List String) : GenTokenOutcome
deriving DecidableEq

/-- Hard-coded token lifetime passed as `expires_in_seconds`
(generate_jwt_token.py line 177): `3600 * 24 * 730`, i.e. 2 years. -/
def generate_token_expires_in_seconds : Nat := 3600 * 24 * 730

/-- Embedding of the `generate_token` command (generate_jwt_token.py lines
69-212): read the private key (exit 1 on failure), load it (exit 1 on
failure), resolve issuer and audience from the flag or the environment
(exit 1 when either is missing or empty), parse the scopes, create the
token, and write it to the token file when one is given (exit 1 on a failed
write); otherwise complete, displaying the token. -/
def generate_token_cmd (io : GenTokenIO) (args : GenTokenArgs) : GenTokenOutcome :=
  match io.read_private_key with
  | Except.error _ => GenTokenOutcome.exit 1
  | Except.ok _ =>
    match io.load_private_key with
    | Except.error _ => GenTokenOutcome.exit 1
    | Except.ok _ =>
      let jwt_issuer := pyOrStr args.issuer io.env_jwt_issuer
      if pyFalsyOpt jwt_issuer then GenTokenOutcome.exit 1
      else
        let jwt_audience := pyOrStr args.audience io.env_jwt_audience
        if pyFalsyOpt jwt_audience then GenTokenOutcome.exit 1
        else
          let scope_list := parse_scopes args.scopes
          match args.token_file with
          | some _ =>
            match io.write_token with
            | Except.error _ => GenTokenOutcome.exit 1
            | Except.ok _ =>
              GenTokenOutcome.success args.subject (jwt_issuer.getD "")
                (jwt_audience.getD "") scope_list
          | none =>
            GenTokenOutcome.success args.subject (jwt_issuer.getD "")
              (jwt_audience.getD "") scope_list

/-- C7: the token-issuance command exits with code 1 (non-zero) whenever
reading the private key fails, whenever the resolved issuer or audience
(flag or environment variable) is missing or empty, and whenever a token
file is requested but writing it fails; a token is displayed (success) only
when the key was read and loaded, issuer and audience resolved, and any
requested token write succeeded — so every failure path terminates without
producing a token. -/
theorem generate_token_failure_modes (io : GenTokenIO) (args : GenTokenArgs) :
    ((∃ e, io.read_private_key = Except.error e) →
      generate_token_cmd io args = GenTokenOutcome.exit 1) ∧
    (pyFalsyOpt (pyOrStr args.issuer io.env_jwt_issuer) = true →
      generate_token_cmd io args = GenTokenOutcome.exit 1) ∧
    (pyFalsyOpt (pyOrStr args.audience io.env_jwt_audience) = true →
      generate_token_cmd io args = GenTokenOutcome.exit 1) ∧
    (args.token_file ≠ none → (∃ e, io.write_token = Except.error e) →
      generate_token_cmd io args = GenTokenOutcome.exit 1) ∧
    (∀ s i a sc, generate_token_cmd io args = GenTokenOutcome.success s i a sc →
      ((∃ k, io.read_private_key = Except.ok k) ∧
       (∃ p, io.load_private_key = Except.ok p) ∧
       pyFalsyOpt (pyOrStr args.issuer io.env_jwt_issuer) = false ∧
       pyFalsyOpt (pyOrStr args.audience io.env_jwt_audience) = false ∧
       (args.token_file = none ∨ io.write_token = Except.ok ()) ∧
       sc = parse_scopes args.scopes)) := by
  unfold generate_token_cmd
  cases hr : io.read_private_key with
  | error e => simp
  | ok k =>
    cases hl : io.load_private_key with
    | error e => simp
    | ok p =>
      cases hi : pyFalsyOpt (pyOrStr args.issuer io.env_jwt_issuer) with
      | true => simp [hi]
      | false =>
        cases ha : pyFalsyOpt (pyOrStr args.audience io.env_jwt_audience) with
        | true => simp [hi, ha]
        | false =>
          cases htf : args.token_file with
          | none =>
            simp only [hi, ha, htf, if_false, Bool.false_eq_true]
            refine ⟨by simp, by simp, by simp, by simp, ?_⟩
            intro s i a sc hs
            cases hs
            refine ⟨⟨k, rfl⟩, ⟨p, rfl⟩, ?_, ?_, ?_, rfl⟩ <;> simp [hi, ha, htf]
          | some tf =>
            cases hw : io.write_token with
            | error e =>
              simp only [hi, ha, htf, hw, if_false, Bool.false_eq_true]
              refine ⟨by simp, by simp, by simp, by simp, ?_⟩
              intro s i a sc hs
              cases hs
            | ok u =>
              simp only [hi, ha, htf, hw, if_false, Bool.false_eq_true]
              refine ⟨by simp, by simp, by simp, ?_, ?_⟩
              · rintro _ ⟨e, he⟩
                exact absurd he (by simp)
              · intro s i a sc hs
                cases hs
                refine ⟨⟨k, rfl⟩, ⟨p, rfl⟩, ?_, ?_, ?_, rfl⟩ <;> simp [hi, ha, htf, hw]

theorem generate_token_failure_modes_witness :
    generate_token_cmd
      ⟨Except.error "No such file", Except.ok "pub", some "iss", some "aud", Except.ok ()⟩
      ⟨"ProjectMCP", none, none, "read,write,admin", some "credentials/token.txt"⟩ =
      GenTokenOutcome.exit 1 :=
  (generate_token_failure_modes
    ⟨Except.error "No such file", Except.ok "pub", some "iss", some "aud", Except.ok ()⟩
    ⟨"ProjectMCP", none, none, "read,write,admin", some "credentials/token.txt"⟩).1
    ⟨"No such file", rfl⟩

/-! ## Symbolic model of JWT issuance and verification

The signing and verification routines (`RSAKeyPair.create_token` and the
JWT verifier) live in the FastMCP library, not in this repository; the
repository only calls them. Following the spec's description of the
authentication core (sections 3, 4.2, 4.3), they are modelled symbolically:
RSA key material is abstract, a signature records which private key produced
it, and signature verification succeeds exactly for the matching public
key. -/

namespace JwtModel

/-- Modelled from the spec: abstract RSA private key material (the signing
half of a KeyPair). -/
structure PrivateKey where
  keyId : Nat
deriving DecidableEq

/-- Modelled from the spec: abstract RSA public key material (the
verification half of a KeyPair). -/
structure PublicKey where
  keyId : Nat
deriving DecidableEq

/-- Modelled from the spec: the public key is always derivable from the
private key (section 3, KeyPair invariant). -/
def PrivateKey.derivePublic (k : PrivateKey) : PublicKey := ⟨k.keyId⟩

/-- Modelled from the spec: a KeyPair holds a private signing key and its
corresponding public verification key. -/
structure KeyPair where
  privateKey : PrivateKey
  publicKey : PublicKey

/-- A KeyPair as produced by generation: the public key matches the private
key it was derived from. -/
def KeyPair.wellFormed (kp : KeyPair) : Prop :=
  kp.publicKey = kp.privateKey.derivePublic

/-- Modelled from the spec (section 3, TokenClaims): subject, issuer,
audience, scopes, issued-at and expiry. -/
structure TokenClaims where
  subject : String
  issuer : String
  audience : String
  scopes : List String
  issuedAt : Nat
  expiry : Nat
deriving DecidableEq

/-- Modelled from the spec (section 3, SignedToken): claims plus a signature
produced with a private key; symbolically, the signature records the signing
key, and checking it against a public key succeeds exactly for the matching
key. -/
structure SignedToken where
  claims : TokenClaims
  signedWith : Nat
deriving DecidableEq

/-- Modelled from the spec (section 4.2, `issue_token`, the contract of the
library's `create_token`): claims are built with issued-at = current time
and expiry = issued-at + lifetime, then signed with the private key. -/
def issue_token (priv : PrivateKey) (subject issuer audience : String)
    (scopes : List String) (now lifetime_seconds : Nat) : SignedToken :=
  { claims := { subject := subject, issuer := issuer, audience := audience,
                scopes := scopes, issuedAt := now,
                expiry := now + lifetime_seconds },
    signedWith := priv.keyId }

/-- Modelled from the spec (section 3, VerifierConfig): expected issuer,
expected audience, and the public key used to check signatures. -/
structure VerifierConfig where
  publicKey : PublicKey
  issuer : String
  audience : String

/-- Modelled from the spec (section 8, `cfg_from`): the verifier configured
with a key pair's public key and the expected issuer and audience. -/
def cfg_from (kp : KeyPair) (issuer audience : String) : VerifierConfig :=
  { publicKey := kp.publicKey, issuer := issuer, audience := audience }

/-- Modelled from the spec (section 4.3): the verifier's error taxonomy. -/
inductive AuthError where
  | invalidSignature : AuthError
  | issuerMismatch : AuthError
  | audienceMismatch : AuthError
  | tokenExpired : AuthError
deriving DecidableEq

/-- Modelled from the spec (section 4.3, `verify_token`): check the
signature against the configured public key, then issuer, then audience,
then that the current time is before expiry; on success return the validated
claims. -/
def verify_token (cfg : VerifierConfig) (now : Nat) (tok : SignedToken) :
    Except AuthError TokenClaims :=
  if tok.signedWith ≠ cfg.publicKey.keyId then Except.error AuthError.invalidSignature
  else if tok.claims.issuer ≠ cfg.issuer then Except.error AuthError.issuerMismatch
  else if tok.claims.audience ≠ cfg.audience then Except.error AuthError.audienceMismatch
  else if tok.claims.expiry ≤ now then Except.error AuthError.tokenExpired
  else Except.ok tok.claims

end JwtModel

/-- C3: for every well-formed key pair and every subject, issuer, audience,
scope list and positive lifetime, verifying (at issuance time) a token
issued with the pair's private key against a verifier configured from the
same pair's public key and the same issuer and audience succeeds and returns
claims equal to the issued ones. -/
theorem issue_verify_round_trip (kp : JwtModel.KeyPair) (hkp : kp.wellFormed)
    (subject issuer audience : String) (scopes : List String)
    (now lifetime : Nat) (hpos : 0 < lifetime) :
    JwtModel.verify_token (JwtModel.cfg_from kp issuer audience) now
        (JwtModel.issue_token kp.privateKey subject issuer audience scopes now lifetime) =
      Except.ok { subject := subject, issuer := issuer, audience := audience,
                  scopes := scopes, issuedAt := now, expiry := now + lifetime } := by
  have hkey : kp.publicKey.keyId = kp.privateKey.keyId := by
    rw [hkp]
    rfl
  unfold JwtModel.verify_token JwtModel.cfg_from JwtModel.issue_token
  simp [hkey]
  omega

theorem issue_verify_round_trip_witness :
    JwtModel.verify_token
        (JwtModel.cfg_from ⟨⟨7⟩, ⟨7⟩⟩ "https://issuer.example" "ProjectMCP") 1000
        (JwtModel.issue_token ⟨7⟩ "ProjectMCP" "https://issuer.example" "ProjectMCP"
          ["read", "write", "admin"] 1000 3600) =
      Except.ok { subject := "ProjectMCP", issuer := "https://issuer.example",
                  audience := "ProjectMCP", scopes := ["read", "write", "admin"],
                  issuedAt := 1000, expiry := 1000 + 3600 } :=
  issue_verify_round_trip ⟨⟨7⟩, ⟨7⟩⟩ rfl "ProjectMCP" "https://issuer.example"
    "ProjectMCP" ["read", "write", "admin"] 1000 3600 (by decide)

/-- C6: every issued token's expiry equals its issued-at plus the
caller-supplied lifetime (which is a parameter of issuance, so expiry
exceeds issued-at whenever the lifetime is positive), and the testing path
of the provisioning tool passes the lifetime 3600 * 24 * 730 = 63,072,000
seconds (2 years). -/
theorem token_expiry_invariant (priv : JwtModel.PrivateKey)
    (subject issuer audience : String) (scopes : List String) (now lifetime : Nat) :
    ((JwtModel.issue_token priv subject issuer audience scopes now lifetime).claims.expiry =
      (JwtModel.issue_token priv subject issuer audience scopes now
        lifetime).claims.issuedAt + lifetime) ∧
    (0 < lifetime →
      (JwtModel.issue_token priv subject issuer audience scopes now
        lifetime).claims.issuedAt <
      (JwtModel.issue_token priv subject issuer audience scopes now
        lifetime).claims.expiry) ∧
    generate_token_expires_in_seconds = 63072000 := by
  refine ⟨rfl, ?_, rfl⟩
  intro hpos
  show now < now + lifetime
  omega

theorem token_expiry_invariant_witness :
    (JwtModel.issue_token ⟨0⟩ "ProjectMCP" "iss" "aud" [] 5
        MCPBigQuery.generate_token_expires_in_seconds).claims.issuedAt <
      (JwtModel.issue_token ⟨0⟩ "ProjectMCP" "iss" "aud" [] 5
        MCPBigQuery.generate_token_expires_in_seconds).claims.expiry :=
  (token_expiry_invariant ⟨0⟩ "ProjectMCP" "iss" "aud" [] 5
    MCPBigQuery.generate_token_expires_in_seconds).2.1 (by decide)

end MCPBigQuery
